import Mathlib

/-!
# Verification of the Cross-Border Payments Calculator quote engine

Shallow embedding of `src/app.py` from the repository
`shbevin/Cross-Border-Payments-Calculator`.  Python floats are modelled by
exact rationals (`ℚ`); every arithmetic expression of the source is carried
over verbatim.  Python's truthiness test `x if base_rate else y`, which
treats both `None` and `0.0` as falsy, is modelled explicitly where the
source uses it (the output-dict assembly at lines 159-172 of `app.py`).
-/

namespace CrossBorder

/-- Embeds the `Rail` dataclass (`app.py` lines 19-27). -/
structure Rail where
  name : String
  fixed_fee : ℚ
  variable_fee_pct : ℚ
  fx_spread_bps : ℤ
  est_delivery_hours : ℤ
  send_limit_min : ℚ
  send_limit_max : ℚ
  deriving Repr, DecidableEq

/-- Embeds the `MID_RATES` dict (`app.py` lines 84-108): an association
list from ordered currency pairs to mid-market multipliers. -/
def MID_RATES : List ((String × String) × ℚ) :=
  [ (("USD", "CAD"), 130/100),
    (("USD", "MXN"), 1950/100),
    (("USD", "GTQ"), 780/100),
    (("USD", "HNL"), 2460/100),
    (("USD", "USD"), 1),
    (("USD", "NIO"), 3670/100),
    (("USD", "CRC"), 515),
    (("USD", "DOP"), 59),
    (("USD", "JMD"), 156),
    (("USD", "HTG"), 132),
    (("USD", "TTD"), 680/100),
    (("USD", "COP"), 4150),
    (("USD", "PEN"), 370/100),
    (("USD", "CLP"), 910),
    (("USD", "ARS"), 950),
    (("USD", "BRL"), 510/100),
    (("USD", "UYU"), 39),
    (("USD", "PYG"), 7400),
    (("USD", "BOB"), 690/100) ]

/-- Embeds `mid_rate` (`app.py` lines 109-110): `MID_RATES.get((src, dst))`. -/
def mid_rate (src_ccy dst_ccy : String) : Option ℚ :=
  MID_RATES.lookup (src_ccy, dst_ccy)

/-- Embeds `bps_to_pct` (`app.py` lines 128-129). -/
def bps_to_pct (bps : ℤ) : ℚ :=
  (bps : ℚ) / 10000

/-- Embeds the dict returned by `compute_quote` (`app.py` lines 159-172).
All monetary/rate fields are plain numbers in the Python output except
`received_dst`, which is `None` exactly when the rate guard is falsy. -/
structure Quote where
  rail : String
  fixed_fee : ℚ
  variable_fee : ℚ
  total_fees_src : ℚ
  fx_spread_bps : ℤ
  fx_spread_cost_src : ℚ
  rate_mid : ℚ
  rate_customer : ℚ
  fx_principal : ℚ
  received_dst : Option ℚ
  est_delivery_hours : ℤ
  limits : ℚ × ℚ
  deriving Repr, DecidableEq

/-- Embeds `compute_quote` (`app.py` lines 131-172).  The `match` mirrors
the `if base_rate is None` test at line 144; the inner `if src_ccy = dst_ccy`
mirrors line 149.  The `if r = 0` guards in the assembly mirror Python
truthiness in `... if base_rate else ...` at lines 165-169: a present rate
equal to `0.0` would be falsy there, exactly like `None`. -/
def compute_quote (amount : ℚ) (rail : Rail) (src_ccy dst_ccy : String) : Quote :=
  let variable_fee := amount * rail.variable_fee_pct
  let fixed_fee := rail.fixed_fee
  let total_fees_src := variable_fee + fixed_fee
  let fx_principal := max (amount - total_fees_src) 0
  let base_rate := mid_rate src_ccy dst_ccy
  let spread_pct := bps_to_pct rail.fx_spread_bps
  match base_rate with
  | none =>
      { rail := rail.name
        fixed_fee := fixed_fee
        variable_fee := variable_fee
        total_fees_src := total_fees_src
        fx_spread_bps := rail.fx_spread_bps
        fx_spread_cost_src := 0
        rate_mid := 0
        rate_customer := 0
        fx_principal := fx_principal
        received_dst := none
        est_delivery_hours := rail.est_delivery_hours
        limits := (rail.send_limit_min, rail.send_limit_max) }
  | some r =>
      let customer_rate := if src_ccy = dst_ccy then r else r * (1 - spread_pct)
      let fx_spread_cost_src :=
        if src_ccy = dst_ccy then 0 else fx_principal * (r - customer_rate)
      let received_dst := fx_principal * customer_rate
      { rail := rail.name
        fixed_fee := fixed_fee
        variable_fee := variable_fee
        total_fees_src := total_fees_src
        fx_spread_bps := rail.fx_spread_bps
        fx_spread_cost_src := if r = 0 then 0 else fx_spread_cost_src
        rate_mid := if r = 0 then 0 else r
        rate_customer := if r = 0 then 0 else customer_rate
        fx_principal := fx_principal
        received_dst := if r = 0 then none else some received_dst
        est_delivery_hours := rail.est_delivery_hours
        limits := (rail.send_limit_min, rail.send_limit_max) }

/-- The engine's internal `customer_rate` local variable after the FX branch
(`app.py` lines 141-155): `None` exactly when the pair is absent from the
rate table, before the output-dict assembly replaces it by `0.0`. -/
def customer_rate_internal (rail : Rail) (src_ccy dst_ccy : String) : Option ℚ :=
  match mid_rate src_ccy dst_ccy with
  | none => none
  | some r =>
      some (if src_ccy = dst_ccy then r else r * (1 - bps_to_pct rail.fx_spread_bps))

/-- Embeds the `InputModel` validation (`app.py` lines 113-120): pydantic
`Field(gt=0)` together with the `validate_amount` validator reject any
amount `≤ 0` with `Amount must be > 0` and accept any positive amount. -/
def validate_amount (v : ℚ) : Except String ℚ :=
  if v ≤ 0 then .error "Amount must be > 0" else .ok v

/-- Embeds the caller-side computation step (`app.py` lines 232-234): the
`InputModel(amount=amount)` validation runs first inside the `try` block,
and `compute_quote` is invoked only when it succeeds. -/
def app_compute (amount : ℚ) (rail : Rail) (src_ccy dst_ccy : String) :
    Except String Quote :=
  match validate_amount amount with
  | .error e => .error e
  | .ok a => .ok (compute_quote a rail src_ccy dst_ccy)

/-- A concrete rail used for witnesses: the Fintech Aggregator rail of the
United States → Canada corridor (`app.py` lines 44, 52). -/
def aggCanada : Rail :=
  { name := "Fintech Aggregator"
    fixed_fee := 199/100
    variable_fee_pct := 10/1000
    fx_spread_bps := 70
    est_delivery_hours := 2
    send_limit_min := 10
    send_limit_max := 5000 }

/-- A concrete rail used for witnesses: the SWIFT rail of the dollarized
United States → El Salvador corridor (`app.py` lines 46, 58). -/
def swiftElSalvador : Rail :=
  { name := "SWIFT"
    fixed_fee := 8
    variable_fee_pct := 2/1000
    fx_spread_bps := 0
    est_delivery_hours := 24
    send_limit_min := 100
    send_limit_max := 50000 }

/-- A concrete rail used for witnesses: the SWIFT rail of the United
States → Canada corridor (`app.py` lines 46, 52), whose fixed fee is the
default `14.0`. -/
def swiftCanada : Rail :=
  { name := "SWIFT"
    fixed_fee := 14
    variable_fee_pct := 2/1000
    fx_spread_bps := 30
    est_delivery_hours := 24
    send_limit_min := 100
    send_limit_max := 50000 }

/-- Association-list lookup only ever returns a stored value. -/
lemma lookup_mem {l : List ((String × String) × ℚ)} {k : String × String} {r : ℚ}
    (h : l.lookup k = some r) : r ∈ l.map Prod.snd := by
  induction l with
  | nil => simp [List.lookup] at h
  | cons p t ih =>
      obtain ⟨pk, pv⟩ := p
      cases hb : (k == pk) with
      | true =>
          simp only [List.lookup, hb] at h
          obtain rfl : pv = r := by injection h
          simp
      | false =>
          simp only [List.lookup, hb] at h
          simp only [List.map_cons, List.mem_cons]
          exact Or.inr (ih h)

/-- Every rate stored in the mid-market table is strictly positive, so a
present rate is never `0.0` and the truthiness guards of the output
assembly behave like presence tests on the actual data. -/
lemma mid_rate_pos {s d : String} {R : ℚ} (h : mid_rate s d = some R) : 0 < R := by
  have hm := lookup_mem h
  simp only [MID_RATES, List.map_cons, List.map_nil, List.mem_cons,
    List.not_mem_nil, or_false] at hm
  rcases hm with rfl | rfl | rfl | rfl | rfl | rfl | rfl | rfl | rfl | rfl |
    rfl | rfl | rfl | rfl | rfl | rfl | rfl | rfl | rfl <;> norm_num

lemma mid_rate_usd_cad : mid_rate "USD" "CAD" = some (130/100) := by
  simp [mid_rate, MID_RATES, List.lookup]

lemma mid_rate_usd_usd : mid_rate "USD" "USD" = some 1 := by
  simp [mid_rate, MID_RATES, List.lookup, instBEqProd, instBEqOfDecidableEq]

lemma mid_rate_usd_eur : mid_rate "USD" "EUR" = none := by decide

/-- C1: for every amount, rail, and currency pair with distinct currencies
whose mid-market rate `R` is in the rate table, `compute_quote` returns
`rate_customer = R * (1 - fx_spread_bps/10000)`,
`fx_spread_cost_src = fx_principal * (R - rate_customer)`, and
`received_dst = fx_principal * rate_customer`. -/
theorem C1_spread_markdown (a : ℚ) (r : Rail) (s d : String) (R : ℚ)
    (hne : s ≠ d) (h : mid_rate s d = some R) :
    (compute_quote a r s d).rate_customer = R * (1 - (r.fx_spread_bps : ℚ) / 10000) ∧
    (compute_quote a r s d).fx_spread_cost_src =
      (compute_quote a r s d).fx_principal * (R - (compute_quote a r s d).rate_customer) ∧
    (compute_quote a r s d).received_dst =
      some ((compute_quote a r s d).fx_principal * (compute_quote a r s d).rate_customer) := by
  have hR0 : ¬ R = 0 := ne_of_gt (mid_rate_pos h)
  simp [compute_quote, h, bps_to_pct, if_neg hne, if_neg hR0]

/-- C1 witness: Scenario-A inputs, USD → CAD at mid rate 1.30. -/
theorem C1_witness :
    ("USD" : String) ≠ "CAD" ∧ mid_rate "USD" "CAD" = some (130/100) ∧
    ((compute_quote 1000 aggCanada "USD" "CAD").rate_customer =
        (130/100) * (1 - ((aggCanada.fx_spread_bps : ℚ)) / 10000) ∧
      (compute_quote 1000 aggCanada "USD" "CAD").fx_spread_cost_src =
        (compute_quote 1000 aggCanada "USD" "CAD").fx_principal *
          (130/100 - (compute_quote 1000 aggCanada "USD" "CAD").rate_customer) ∧
      (compute_quote 1000 aggCanada "USD" "CAD").received_dst =
        some ((compute_quote 1000 aggCanada "USD" "CAD").fx_principal *
          (compute_quote 1000 aggCanada "USD" "CAD").rate_customer)) :=
  ⟨by decide, mid_rate_usd_cad,
    C1_spread_markdown 1000 aggCanada "USD" "CAD" (130/100) (by decide) mid_rate_usd_cad⟩

/-- C2: for every amount and rail, when the source and destination
currencies coincide and the pair's rate is in the table, `compute_quote`
returns `rate_customer` equal to the mid rate and `fx_spread_cost_src = 0`,
regardless of the rail's configured `fx_spread_bps`. -/
theorem C2_same_currency_no_spread (a : ℚ) (r : Rail) (s d : String) (R : ℚ)
    (heq : s = d) (h : mid_rate s d = some R) :
    (compute_quote a r s d).rate_customer = R ∧
    (compute_quote a r s d).fx_spread_cost_src = 0 := by
  have hR0 : ¬ R = 0 := ne_of_gt (mid_rate_pos h)
  subst heq
  simp [compute_quote, h, if_neg hR0]

/-- C2 witness: USD → USD (dollarized corridor) at mid rate 1.00, on a rail
with a nonzero configured spread. -/
theorem C2_witness :
    ("USD" : String) = "USD" ∧ mid_rate "USD" "USD" = some 1 ∧
    aggCanada.fx_spread_bps = 70 ∧
    ((compute_quote 500 aggCanada "USD" "USD").rate_customer = 1 ∧
      (compute_quote 500 aggCanada "USD" "USD").fx_spread_cost_src = 0) :=
  ⟨rfl, mid_rate_usd_usd, rfl,
    C2_same_currency_no_spread 500 aggCanada "USD" "USD" 1 rfl mid_rate_usd_usd⟩

/-- C3: for every amount (negative included) and every rail,
`fx_principal = max(amount - total_fees_src, 0) ≥ 0`; when the fees exceed
the amount the principal clamps to `0` and, with a known rate, the received
amount is `0` (the function is total, so no error is ever raised). -/
theorem C3_principal_clamped (a : ℚ) (r : Rail) (s d : String) :
    (compute_quote a r s d).fx_principal =
      max (a - (compute_quote a r s d).total_fees_src) 0 ∧
    0 ≤ (compute_quote a r s d).fx_principal ∧
    ((compute_quote a r s d).total_fees_src > a →
      (compute_quote a r s d).fx_principal = 0 ∧
      ∀ R : ℚ, mid_rate s d = some R →
        (compute_quote a r s d).received_dst = some 0) := by
  rcases hm : mid_rate s d with _ | R
  · refine ⟨by simp [compute_quote, hm], by simp [compute_quote, hm], ?_⟩
    intro hgt
    refine ⟨?_, ?_⟩
    · have hgt' : a * r.variable_fee_pct + r.fixed_fee > a := by
        simpa [compute_quote, hm] using hgt
      simp only [compute_quote, hm]
      exact max_eq_right (by linarith)
    · intro R hR
      exact absurd hR (by simp)
  · have hR0 : ¬ R = 0 := ne_of_gt (mid_rate_pos hm)
    refine ⟨by simp [compute_quote, hm], by simp [compute_quote, hm], ?_⟩
    intro hgt
    have hgt' : a * r.variable_fee_pct + r.fixed_fee > a := by
      simpa [compute_quote, hm] using hgt
    have hmax : max (a - (a * r.variable_fee_pct + r.fixed_fee)) 0 = 0 :=
      max_eq_right (by linarith)
    refine ⟨?_, ?_⟩
    · simp [compute_quote, hm, hmax]
    · intro R' hR'
      obtain rfl : R = R' := by injection hR'
      simp [compute_quote, hm, hmax, if_neg hR0]

/-- C3 witness: Scenario C, amount 5 on the Canada SWIFT rail with fixed
fee 14.0, so the fees exceed the amount. -/
theorem C3_witness :
    (compute_quote 5 swiftCanada "USD" "CAD").fx_principal =
      max (5 - (compute_quote 5 swiftCanada "USD" "CAD").total_fees_src) 0 ∧
    0 ≤ (compute_quote 5 swiftCanada "USD" "CAD").fx_principal ∧
    (compute_quote 5 swiftCanada "USD" "CAD").total_fees_src > 5 ∧
    (compute_quote 5 swiftCanada "USD" "CAD").fx_principal = 0 ∧
    (compute_quote 5 swiftCanada "USD" "CAD").received_dst = some 0 := by
  have hgt : (compute_quote 5 swiftCanada "USD" "CAD").total_fees_src > 5 := by
    simp [compute_quote, mid_rate_usd_cad, swiftCanada]
    norm_num
  have h := C3_principal_clamped 5 swiftCanada "USD" "CAD"
  exact ⟨h.1, h.2.1, hgt, (h.2.2 hgt).1, (h.2.2 hgt).2 (130/100) mid_rate_usd_cad⟩

/-- C4: for every amount ≥ 0 and every rail, `compute_quote` returns
`variable_fee = amount * variable_fee_pct` and
`total_fees_src = fixed_fee + amount * variable_fee_pct` exactly, and the
total is at least the fixed fee whenever the percentage is non-negative. -/
theorem C4_fee_composition (a : ℚ) (r : Rail) (s d : String) (ha : 0 ≤ a) :
    (compute_quote a r s d).variable_fee = a * r.variable_fee_pct ∧
    (compute_quote a r s d).total_fees_src = r.fixed_fee + a * r.variable_fee_pct ∧
    (0 ≤ r.variable_fee_pct → r.fixed_fee ≤ (compute_quote a r s d).total_fees_src) := by
  rcases hm : mid_rate s d with _ | R <;>
    refine ⟨by simp [compute_quote, hm], by simp [compute_quote, hm]; ring, ?_⟩ <;>
    · intro hpct
      have hv : 0 ≤ a * r.variable_fee_pct := mul_nonneg ha hpct
      have ht : (compute_quote a r s d).total_fees_src =
          a * r.variable_fee_pct + r.fixed_fee := by simp [compute_quote, hm]
      rw [ht]
      linarith

/-- C4 witness: Scenario-A inputs. -/
theorem C4_witness :
    (0 : ℚ) ≤ 1000 ∧
    ((compute_quote 1000 aggCanada "USD" "CAD").variable_fee =
        1000 * aggCanada.variable_fee_pct ∧
      (compute_quote 1000 aggCanada "USD" "CAD").total_fees_src =
        aggCanada.fixed_fee + 1000 * aggCanada.variable_fee_pct ∧
      (0 ≤ aggCanada.variable_fee_pct →
        aggCanada.fixed_fee ≤ (compute_quote 1000 aggCanada "USD" "CAD").total_fees_src)) :=
  ⟨by norm_num, C4_fee_composition 1000 aggCanada "USD" "CAD" (by norm_num)⟩

/-- C5: for every amount and rail, when the currency pair is absent from
the rate table, the engine's internal customer rate is `None`, and the
returned quote has `received_dst = None`, `fx_spread_cost_src = 0`,
`rate_mid` reported as `0`, and `rate_customer` reported as `0` (so the
quote never carries a non-zero rate; the embedded function is total, so no
exception is possible). -/
theorem C5_unknown_pair_unquotable (a : ℚ) (r : Rail) (s d : String)
    (h : mid_rate s d = none) :
    customer_rate_internal r s d = none ∧
    (compute_quote a r s d).received_dst = none ∧
    (compute_quote a r s d).fx_spread_cost_src = 0 ∧
    (compute_quote a r s d).rate_mid = 0 ∧
    (compute_quote a r s d).rate_customer = 0 := by
  refine ⟨?_, ?_, ?_, ?_, ?_⟩ <;> simp [customer_rate_internal, compute_quote, h]

/-- C5 witness: the pair USD → EUR has no entry in the table. -/
theorem C5_witness :
    mid_rate "USD" "EUR" = none ∧
    (customer_rate_internal aggCanada "USD" "EUR" = none ∧
      (compute_quote 250 aggCanada "USD" "EUR").received_dst = none ∧
      (compute_quote 250 aggCanada "USD" "EUR").fx_spread_cost_src = 0 ∧
      (compute_quote 250 aggCanada "USD" "EUR").rate_mid = 0 ∧
      (compute_quote 250 aggCanada "USD" "EUR").rate_customer = 0) :=
  ⟨mid_rate_usd_eur, C5_unknown_pair_unquotable 250 aggCanada "USD" "EUR" mid_rate_usd_eur⟩

/-- C6 counterexample: the claim says a same-currency quote and an
unknown-pair quote both report `rate_mid = 0`.  On the code the
same-currency quote USD → USD reports `rate_mid = 1` (the mid rate), not
`0`, so the two shapes are not identical. -/
theorem C6_counterexample :
    (compute_quote 500 swiftElSalvador "USD" "USD").rate_mid = 1 ∧
    (compute_quote 500 swiftElSalvador "USD" "EUR").rate_mid = 0 ∧
    (1 : ℚ) ≠ 0 := by
  refine ⟨?_, ?_, by norm_num⟩
  · simp [compute_quote, mid_rate_usd_usd]
  · simp [compute_quote, mid_rate_usd_eur]

/-- C6 amended: the same-currency quote reports `rate_mid` equal to the
mid rate (1.0 for USD → USD) while the unknown-pair quote reports
`rate_mid = 0`; the two outputs differ in `rate_mid`, for every amount and
every rail. -/
theorem C6_rate_mid_distinguishes (a : ℚ) (r : Rail) :
    (compute_quote a r "USD" "USD").rate_mid = 1 ∧
    (compute_quote a r "USD" "EUR").rate_mid = 0 ∧
    (compute_quote a r "USD" "USD").rate_mid ≠ (compute_quote a r "USD" "EUR").rate_mid := by
  have h1 : (compute_quote a r "USD" "USD").rate_mid = 1 := by
    simp [compute_quote, mid_rate_usd_usd]
  have h2 : (compute_quote a r "USD" "EUR").rate_mid = 0 := by
    simp [compute_quote, mid_rate_usd_eur]
  exact ⟨h1, h2, by rw [h1, h2]; norm_num⟩

/-- C7 counterexample: on Scenario-A inputs the code returns
`received_dst = 988.01 * 1.2909 = 1275.422109`, which is more than `0.2`
away from the claimed `≈ 1275.21`. -/
theorem C7_counterexample :
    (compute_quote 1000 aggCanada "USD" "CAD").received_dst =
      some (1275422109/1000000) ∧
    (1275422109/1000000 : ℚ) - 127521/100 > 2/10 := by
  constructor
  · simp [compute_quote, mid_rate_usd_cad, bps_to_pct, aggCanada]
    norm_num
  · norm_num

/-- C7 amended: for amount 1000 on the rail with fixed fee 1.99, variable
fee 1.0% and spread 70 bps, over USD → CAD at mid rate 1.30, the code
returns `variable_fee = 10.00`, `total_fees_src = 11.99`,
`fx_principal = 988.01`, `rate_customer = 1.30 * (1 - 0.007) = 1.2909`,
and `received_dst = 988.01 * 1.2909 = 1275.422109 ≈ 1275.42`. -/
theorem C7_scenarioA :
    (compute_quote 1000 aggCanada "USD" "CAD").variable_fee = 10 ∧
    (compute_quote 1000 aggCanada "USD" "CAD").total_fees_src = 1199/100 ∧
    (compute_quote 1000 aggCanada "USD" "CAD").fx_principal = 98801/100 ∧
    (compute_quote 1000 aggCanada "USD" "CAD").rate_customer =
      (130/100) * (1 - 7/1000) ∧
    (compute_quote 1000 aggCanada "USD" "CAD").rate_customer = 12909/10000 ∧
    (compute_quote 1000 aggCanada "USD" "CAD").received_dst =
      some ((98801/100) * (12909/10000)) ∧
    (98801/100 : ℚ) * (12909/10000) = 1275422109/1000000 := by
  refine ⟨?_, ?_, ?_, ?_, ?_, ?_, by norm_num⟩ <;>
    · simp [compute_quote, mid_rate_usd_cad, bps_to_pct, aggCanada]
      norm_num

/-- C8: the caller-side validation rejects every amount ≤ 0 before
`compute_quote` is reached, and passes every amount > 0 through to the
engine unchanged. -/
theorem C8_amount_validation (amount : ℚ) (r : Rail) (s d : String) :
    (amount ≤ 0 → app_compute amount r s d = .error "Amount must be > 0") ∧
    (0 < amount → app_compute amount r s d = .ok (compute_quote amount r s d)) := by
  constructor
  · intro h
    simp [app_compute, validate_amount, if_pos h]
  · intro h
    simp [app_compute, validate_amount, if_neg (not_le.mpr h)]

/-- C8 witness: amount −5 is rejected, amount 1000 is computed. -/
theorem C8_witness :
    ((-5 : ℚ) ≤ 0 ∧
      app_compute (-5) aggCanada "USD" "CAD" = .error "Amount must be > 0") ∧
    ((0 : ℚ) < 1000 ∧
      app_compute 1000 aggCanada "USD" "CAD" =
        .ok (compute_quote 1000 aggCanada "USD" "CAD")) :=
  ⟨⟨by norm_num, (C8_amount_validation (-5) aggCanada "USD" "CAD").1 (by norm_num)⟩,
    ⟨by norm_num, (C8_amount_validation 1000 aggCanada "USD" "CAD").2 (by norm_num)⟩⟩

/-- C9: `compute_quote` is deterministic — two invocations on identical
inputs (and the fixed rate table) return identical quotes in every field;
the embedding is a pure function, so neither the rail nor the table can be
mutated. -/
theorem C9_deterministic (a₁ a₂ : ℚ) (r₁ r₂ : Rail) (s₁ s₂ d₁ d₂ : String)
    (ha : a₁ = a₂) (hr : r₁ = r₂) (hs : s₁ = s₂) (hd : d₁ = d₂) :
    compute_quote a₁ r₁ s₁ d₁ = compute_quote a₂ r₂ s₂ d₂ := by
  subst ha; subst hr; subst hs; subst hd; rfl

/-- C9 witness: two identical invocations on Scenario-A inputs agree. -/
theorem C9_witness :
    compute_quote 1000 aggCanada "USD" "CAD" =
      compute_quote 1000 aggCanada "USD" "CAD" :=
  C9_deterministic 1000 1000 aggCanada aggCanada "USD" "USD" "CAD" "CAD"
    rfl rfl rfl rfl

/-- C10 (implicit): for a non-negative amount, a rail with non-negative
fixed fee and percentage and a spread between 0 and 10000 bps, on a pair
with a present positive mid rate, every numeric field of the quote is
non-negative, and the received amount is present and non-negative. -/
theorem C10_nonneg_fields (a : ℚ) (r : Rail) (s d : String) (R : ℚ)
    (ha : 0 ≤ a) (hf : 0 ≤ r.fixed_fee) (hp : 0 ≤ r.variable_fee_pct)
    (hb0 : 0 ≤ r.fx_spread_bps) (hb1 : r.fx_spread_bps ≤ 10000)
    (h : mid_rate s d = some R) :
    0 ≤ (compute_quote a r s d).fixed_fee ∧
    0 ≤ (compute_quote a r s d).variable_fee ∧
    0 ≤ (compute_quote a r s d).total_fees_src ∧
    0 ≤ (compute_quote a r s d).fx_principal ∧
    0 ≤ (compute_quote a r s d).fx_spread_cost_src ∧
    0 ≤ (compute_quote a r s d).rate_mid ∧
    0 ≤ (compute_quote a r s d).rate_customer ∧
    ∃ v : ℚ, (compute_quote a r s d).received_dst = some v ∧ 0 ≤ v := by
  have hR : 0 < R := mid_rate_pos h
  have hR0 : ¬ R = 0 := ne_of_gt hR
  have hv : 0 ≤ a * r.variable_fee_pct := mul_nonneg ha hp
  have hprin : (0 : ℚ) ≤ max (a - (a * r.variable_fee_pct + r.fixed_fee)) 0 :=
    le_max_right _ _
  have hsp0 : 0 ≤ (r.fx_spread_bps : ℚ) / 10000 := by
    apply div_nonneg _ (by norm_num)
    exact_mod_cast hb0
  have hsp1 : (r.fx_spread_bps : ℚ) / 10000 ≤ 1 := by
    rw [div_le_one (by norm_num)]
    exact_mod_cast hb1
  by_cases hsd : s = d
  · refine ⟨by simp [compute_quote, h, hf], by simp [compute_quote, h, hv],
      by simp [compute_quote, h]; linarith,
      by simp [compute_quote, h],
      by simp [compute_quote, h, if_pos hsd, if_neg hR0],
      by simp [compute_quote, h, if_neg hR0]; linarith,
      by simp [compute_quote, h, if_pos hsd, if_neg hR0]; linarith, ?_⟩
    refine ⟨max (a - (a * r.variable_fee_pct + r.fixed_fee)) 0 * R, ?_, ?_⟩
    · simp [compute_quote, h, if_pos hsd, if_neg hR0]
    · exact mul_nonneg hprin (le_of_lt hR)
  · have hcust : 0 ≤ R * (1 - (r.fx_spread_bps : ℚ) / 10000) :=
      mul_nonneg (le_of_lt hR) (by linarith)
    have hdiff : 0 ≤ R - R * (1 - (r.fx_spread_bps : ℚ) / 10000) := by
      have : R - R * (1 - (r.fx_spread_bps : ℚ) / 10000) =
          R * ((r.fx_spread_bps : ℚ) / 10000) := by ring
      rw [this]
      exact mul_nonneg (le_of_lt hR) hsp0
    refine ⟨by simp [compute_quote, h, hf], by simp [compute_quote, h, hv],
      by simp [compute_quote, h]; linarith,
      by simp [compute_quote, h],
      ?_,
      by simp [compute_quote, h, if_neg hR0]; linarith,
      by simp [compute_quote, h, if_neg hsd, if_neg hR0, bps_to_pct]; exact hcust, ?_⟩
    · have : (compute_quote a r s d).fx_spread_cost_src =
          max (a - (a * r.variable_fee_pct + r.fixed_fee)) 0 *
            (R - R * (1 - (r.fx_spread_bps : ℚ) / 10000)) := by
        simp [compute_quote, h, if_neg hsd, if_neg hR0, bps_to_pct]
      rw [this]
      exact mul_nonneg hprin hdiff
    · refine ⟨max (a - (a * r.variable_fee_pct + r.fixed_fee)) 0 *
        (R * (1 - (r.fx_spread_bps : ℚ) / 10000)), ?_, mul_nonneg hprin hcust⟩
      simp [compute_quote, h, if_neg hsd, if_neg hR0, bps_to_pct]

/-- C10 witness: Scenario-A inputs, USD → CAD at mid rate 1.30. -/
theorem C10_witness :
    (0 : ℚ) ≤ 1000 ∧ 0 ≤ aggCanada.fixed_fee ∧ 0 ≤ aggCanada.variable_fee_pct ∧
    0 ≤ aggCanada.fx_spread_bps ∧ aggCanada.fx_spread_bps ≤ 10000 ∧
    mid_rate "USD" "CAD" = some (130/100) ∧
    (0 ≤ (compute_quote 1000 aggCanada "USD" "CAD").fixed_fee ∧
      0 ≤ (compute_quote 1000 aggCanada "USD" "CAD").variable_fee ∧
      0 ≤ (compute_quote 1000 aggCanada "USD" "CAD").total_fees_src ∧
      0 ≤ (compute_quote 1000 aggCanada "USD" "CAD").fx_principal ∧
      0 ≤ (compute_quote 1000 aggCanada "USD" "CAD").fx_spread_cost_src ∧
      0 ≤ (compute_quote 1000 aggCanada "USD" "CAD").rate_mid ∧
      0 ≤ (compute_quote 1000 aggCanada "USD" "CAD").rate_customer ∧
      ∃ v : ℚ, (compute_quote 1000 aggCanada "USD" "CAD").received_dst = some v ∧
        0 ≤ v) :=
  ⟨by norm_num, by norm_num [aggCanada], by norm_num [aggCanada],
    by norm_num [aggCanada], by norm_num [aggCanada], mid_rate_usd_cad,
    C10_nonneg_fields 1000 aggCanada "USD" "CAD" (130/100) (by norm_num)
      (by norm_num [aggCanada]) (by norm_num [aggCanada]) (by norm_num [aggCanada])
      (by norm_num [aggCanada]) mid_rate_usd_cad⟩

end CrossBorder
